import Mathlib

/-
Shallow embedding of `tracker.py` from the sublime-text abbreviation-tracker
plugin.  Pure data is translated to Lean structures; the external
collaborators (grammar parsers, expansion engine, syntax highlighter,
settings store) are modelled as oracle fields of an `Env` record; the
mutable editor state (tracker registry plus one view's text and
presentation artifacts) is threaded explicitly.  Python exceptions are
modelled with an explicit `PyExc` component in result types.
-/

set_option autoImplicit false

/-- Offset range of a `sublime.Region(a, b)`; both bounds are signed. -/
structure Region where
  a : Int
  b : Int
  deriving Repr, DecidableEq

/-- Model of `sublime.Region.begin()`. -/
def regionBegin (r : Region) : Int := min r.a r.b

/-- Model of `sublime.Region.end()`. -/
def regionEnd (r : Region) : Int := max r.a r.b

/-- The `type` entry of an emmet options mapping. -/
inductive CType where
  | markup
  | stylesheet
  deriving Repr, DecidableEq

/-- Model of the emmet config mapping: the fields `tracker.py` reads
(`type`, `syntax`) plus the `preview` flag set on the copy made in
`update_abbreviation`. -/
structure Config where
  ctype : CType
  syntaxName : String
  preview : Bool := false
  deriving Repr, DecidableEq

/-- Python exceptions relevant to `tracker.py`: the two scanner failures the
code catches (each carrying `message` and `pos`, the latter possibly
`None`), plus arbitrary other exceptions and `TypeError`. -/
inductive PyExc where
  | scanner (message : String) (pos : Option Nat)
  | tokenScanner (message : String) (pos : Option Nat)
  | typeError (info : String)
  | other (info : String)
  deriving Repr, DecidableEq

/-- Node of a parsed markup abbreviation: an optional tag name and child
nodes, as read by `is_simple_markup_abbreviation`. -/
inductive MNode where
  | mk (name : Option String) (children : List MNode)

/-- Tag name of a markup node. -/
def MNode.name : MNode → Option String
  | MNode.mk n _ => n

/-- Children of a markup node. -/
def MNode.children : MNode → List MNode
  | MNode.mk _ cs => cs

/-- Result of the external markup grammar: a root holding top-level nodes. -/
structure MarkupAbbreviation where
  children : List MNode

/-- Opaque result of the external stylesheet grammar; `tracker.py` only ever
passes it on to the expansion engine. -/
structure CssTree where
  ident : Nat
  deriving Repr, DecidableEq

/-- A parsed tree handed to the expansion engine. -/
inductive ParsedTree where
  | css (t : CssTree)
  | markup (t : MarkupAbbreviation)

/-- Value of `RegionTracker.abbreviation`: Python `None` (empty region), the
success dict, or the error dict (whose `pointer` is precomputed in
`update_abbreviation`). -/
inductive Abbr where
  | pyNone
  | parsed (abbr : String) (simple : Bool) (preview : String)
  | error (abbr : String) (message : String) (pos : Option Nat) (pointer : String)
  deriving Repr, DecidableEq

/-- State of one `RegionTracker` instance (`tracker.py` lines 17-32). The
`forced_indicator`, `_has_popup_preview` and `_phantom_preview` handles are
modelled as booleans recording whether the handle exists. -/
structure RegionTracker where
  last_pos : Int
  last_length : Int
  region : Region
  forced : Bool
  config : Option Config
  abbreviation : Abbr
  offset : Nat
  forced_indicator : Bool
  has_popup_preview : Bool
  phantom_preview : Bool
  deriving Repr, DecidableEq

/-- One editor view: its identity, its current text and its presentation
artifacts.  Regions and phantoms are stored per key: `regionsAbbr` and
`phantomsAbbr` model the `emmet-abbreviation` key, `phantomsPreview` the
`emmet-abbreviation-preview` key; the popup carries its anchor location. -/
structure View where
  id : Nat
  text : String
  regionsAbbr : List Region
  phantomsAbbr : List (Region × String)
  phantomsPreview : List (Int × String)
  popup : Option (Int × String)
  deriving Repr, DecidableEq

/-- External collaborators and settings, modelled as oracles: the caret
reported by `utils.get_caret`, `emmet.get_options`, the two grammar
parsers, `emmet.expand`, `syntax.is_html`, `html_highlight.highlight` and
`html_highlight.styles`, and the two settings `tracker.py` reads. -/
structure Env where
  caret : Int
  getOptions : Int → Config
  stylesheetParse : String → Config → Except PyExc CssTree
  markupParse : String → Config → Except PyExc MarkupAbbreviation
  expand : ParsedTree → Config → Except PyExc String
  isHtml : String → Bool
  highlight : String → String
  hlStyles : String
  abbreviationPreview : Bool
  markerScope : String

/-- Process-wide state: the `cache` registry (document id to tracker) plus
the single view the claims exercise. -/
structure World where
  cache : List (Nat × RegionTracker)
  view : View

/-- Python string slice `s[a:b]` with the clamping `sublime.View.substr`
performs on out-of-range regions. -/
def pySlice (s : String) (a b : Int) : String :=
  let n := s.length
  let lo := (max a 0).toNat.min n
  let hi := (max b 0).toNat.min n
  String.mk ((s.toList.drop lo).take (hi - lo))

/-- Model of `sublime.View.erase` of a region: removes the characters
between the region's begin and end. -/
def pyErase (s : String) (x y : Int) : String :=
  let n := s.length
  let lo := (max (min x y) 0).toNat.min n
  let hi := (max (max x y) 0).toNat.min n
  String.mk (s.toList.take lo ++ s.toList.drop hi)

/-- Model of `sublime.View.substr(region)`. -/
def substrView (v : View) (r : Region) : String :=
  pySlice v.text (regionBegin r) (regionEnd r)

/-- Model of `html.escape(s, False)`: replaces the characters that matter
for markup, leaving quotes alone. -/
def pyHtmlEscape (s : String) : String :=
  String.join (s.toList.map (fun c =>
    if c = '&' then "&amp;"
    else if c = '<' then "&lt;"
    else if c = '>' then "&gt;"
    else String.mk [c]))

/-- ASCII model of the regex class backslash-s used in `tracker.py`. -/
def pyIsSpace (c : Char) : Bool :=
  c = ' ' || c = '\t' || c = '\n' || c = '\x0d' || c = '\x0b' || c = '\x0c'

/-- Model of Python `str.isalpha`: nonempty and every character alphabetic. -/
def pyStrIsAlpha (s : String) : Bool :=
  !s.isEmpty && s.toList.all Char.isAlpha

/-- Python truthiness of an optional string: `None` and the empty string are
falsy. -/
def nameFalsy : Option String → Bool
  | none => true
  | some s => s.isEmpty

/-- Model of `re.sub` removing a trailing whitespace-plus, `at`, single
whitespace, digits-plus suffix anchored at the end of the message
(`tracker.py` line 124).  Scanning the reversed character list: digits,
one whitespace, `t`, `a`, then a nonempty whitespace run. -/
def stripAtSuffix (s : String) : String :=
  let cs := s.toList.reverse
  let ds := cs.takeWhile Char.isDigit
  if ds.isEmpty then s
  else
    match cs.drop ds.length with
    | c1 :: 't' :: 'a' :: rest2 =>
      if pyIsSpace c1 then
        let ws := rest2.takeWhile pyIsSpace
        if ws.isEmpty then s
        else String.mk ((rest2.drop ws.length).reverse)
      else s
    | _ => s

/-- Model of Python `str.splitlines` restricted to newline separators (the
only separator occurring in this plugin's snippets). -/
def pySplitlines (s : String) : List String :=
  let step := fun (st : List String × List Char) (c : Char) =>
    if c = '\n' then (st.1 ++ [String.mk st.2.reverse], [])
    else (st.1, c :: st.2)
  let fin := s.toList.foldl step ([], [])
  if fin.2.isEmpty then fin.1 else fin.1 ++ [String.mk fin.2.reverse]

/-- Model of `indent_size` (`tracker.py` lines 310-312): number of leading
tab characters times `width`. -/
def indent_size (line : String) (width : Nat) : Nat :=
  (line.toList.takeWhile (fun c => c = '\t')).length * width

/-- Model of `format_snippet` at its only call pattern (`class_name` absent):
wraps each line in a padded code block and joins with newlines. -/
def format_snippet (text : String) : String :=
  let lineHtml := fun (line : String) =>
    "<div style=\"padding-left: " ++ toString (indent_size line 20) ++
      "px\"><code>" ++ line ++ "</code></div>"
  String.intercalate "\n" ((pySplitlines text).map lineHtml)

/-- Pointer string stored in the error dict (`tracker.py` line 84): `pos`
dashes followed by a caret, or empty when `pos` is `None`. -/
def errPointer : Option Nat → String
  | some p => String.mk (List.replicate p '-') ++ "^"
  | none => ""

/-- Error fragment assembled in `show_preview` (`tracker.py` line 125). -/
def error_content (pointer snippet : String) : String :=
  "<div class=\"error pointer\">" ++ pointer ++
    "</div><div class=\"error message\">" ++ snippet ++ "</div>"

/-- Model of `preview_popup_html` (`tracker.py` lines 250-263). -/
def preview_popup_html (style content : String) : String :=
  "<body id=\"emmet-preview-popup\"><style>body \x7b line-height: 1.5rem; \x7d " ++
    ".error \x7b color: red \x7d " ++
    ".error.message \x7b font-size: 11px; line-height: 1.3rem; \x7d " ++
    ".markup-preview \x7b font-size: 11px; line-height: 1.3rem; \x7d " ++
    style ++ "</style><div>" ++ content ++ "</div></body>"

/-- Model of `preview_phantom_html` (`tracker.py` lines 266-282). -/
def preview_phantom_html (content : String) : String :=
  "<body id=\"emmet-preview-phantom\"><style>body \x7b background-color: var(--greenish); " ++
    "color: #fff; border-radius: 3px; padding: 1px 3px; position: relative; \x7d " ++
    ".error \x7b color: red \x7d</style><div class=\"main\">" ++ content ++ "</div></body>"

/-- Model of `forced_indicator` (`tracker.py` lines 285-299). -/
def forced_indicator (content : String) : String :=
  "<body><style>#emmet-forced-abbreviation \x7b background-color: var(--greenish); " ++
    "color: #fff; border-radius: 3px; padding: 1px 3px; \x7d</style>" ++
    "<div id=\"emmet-forced-abbreviation\">" ++ content ++ "</div></body>"

/-- Model of `RegionTracker.shift`: translate both bounds by `offset`. -/
def RegionTracker.shift (t : RegionTracker) (offset : Int) : RegionTracker :=
  { t with region := { a := t.region.a + offset, b := t.region.b + offset } }

/-- Model of `RegionTracker.extend`: move only the end bound by `size`. -/
def RegionTracker.extend (t : RegionTracker) (size : Int) : RegionTracker :=
  { t with region := { t.region with b := t.region.b + size } }

/-- Model of `RegionTracker.is_valid_range` (`tracker.py` lines 43-45). -/
def is_valid_range (t : RegionTracker) : Bool :=
  t.region.a < t.region.b || (t.region.a = t.region.b && t.forced)

/-- Model of `is_simple_markup_abbreviation` (`tracker.py` lines 315-325):
when the tree has exactly one childless top-level node, simple means its
name is falsy or alphabetic; otherwise simple means no top-level nodes. -/
def is_simple_markup_abbreviation (abbr : MarkupAbbreviation) : Bool :=
  match abbr.children with
  | [first] =>
    if first.children.isEmpty then
      nameFalsy first.name || pyStrIsAlpha (first.name.getD "")
    else
      false
  | [] => true
  | _ => false

/-- Lazy config resolution at the top of `update_abbreviation` (`tracker.py`
lines 53-54): keep an already-set config, otherwise query the resolver at
the region start. -/
def resolve_config (env : Env) (t : RegionTracker) : Config :=
  match t.config with
  | some c => c
  | none => env.getOptions t.region.a

/-- Parser dispatch of `update_abbreviation` (`tracker.py` lines 63-68):
stylesheet configs use the stylesheet grammar and fix `simple = true`;
everything else uses the markup grammar and classifies the tree. -/
def parsed_result (env : Env) (cfg : Config) (abbr : String) :
    Except PyExc (ParsedTree × Bool) :=
  if cfg.ctype = CType.stylesheet then
    match env.stylesheetParse abbr cfg with
    | Except.ok tr => Except.ok (ParsedTree.css tr, true)
    | Except.error e => Except.error e
  else
    match env.markupParse abbr cfg with
    | Except.ok tr => Except.ok (ParsedTree.markup tr, is_simple_markup_abbreviation tr)
    | Except.error e => Except.error e

/-- The `except (ScannerException, TokenScannerException)` clause
(`tracker.py` lines 78-86): scanner failures become the error dict, every
other exception keeps propagating. -/
def catch_scan : PyExc → String → RegionTracker → RegionTracker × Option PyExc
  | PyExc.scanner msg p, abbr, t =>
    ({ t with abbreviation := Abbr.error abbr msg p (errPointer p) }, none)
  | PyExc.tokenScanner msg p, abbr, t =>
    ({ t with abbreviation := Abbr.error abbr msg p (errPointer p) }, none)
  | e, _, t => (t, some e)

/-- True exactly for the two exception kinds the code catches. -/
def is_scan_error : PyExc → Bool
  | PyExc.scanner _ _ => true
  | PyExc.tokenScanner _ _ => true
  | _ => false

/-- Model of `RegionTracker.update_abbreviation` (`tracker.py` lines 47-86).
Returns the mutated tracker plus the exception that escaped, if any; the
mutations performed before a fatal exception (config resolution,
`abbreviation = None`) are kept, matching Python object mutation. -/
def update_abbreviation (env : Env) (v : View) (t : RegionTracker) :
    RegionTracker × Option PyExc :=
  let abbr := (substrView v t.region).drop t.offset
  let cfg := resolve_config env t
  let t1 := { t with config := some cfg, abbreviation := Abbr.pyNone }
  if abbr.isEmpty then (t1, none)
  else
    match parsed_result env cfg abbr with
    | Except.ok (tree, simple) =>
      let previewConfig := { cfg with preview := true }
      match env.expand tree previewConfig with
      | Except.ok prev => ({ t1 with abbreviation := Abbr.parsed abbr simple prev }, none)
      | Except.error e => catch_scan e abbr t1
    | Except.error e => catch_scan e abbr t1

/-- Model of `RegionTracker.mark` (`tracker.py` lines 88-98): replace the
abbreviation decoration with the current region; when forced, also
(re)create the indicator phantom set and place the indicator glyph. -/
def mark (t : RegionTracker) (v : View) : RegionTracker × View :=
  let v1 := { v with regionsAbbr := [t.region] }
  if t.forced then
    ({ t with forced_indicator := true },
      { v1 with phantomsAbbr := [(t.region, forced_indicator "⋮>")] })
  else (t, v1)

/-- Model of `RegionTracker.hide_preview` (`tracker.py` lines 157-164):
tear down the popup and the preview phantom, each only when its handle is
live. -/
def hide_preview (t : RegionTracker) (v : View) : RegionTracker × View :=
  let tv1 :=
    if t.has_popup_preview then
      ({ t with has_popup_preview := false }, { v with popup := none })
    else (t, v)
  if tv1.1.phantom_preview then
    ({ tv1.1 with phantom_preview := false }, { tv1.2 with phantomsPreview := [] })
  else tv1

/-- Model of `RegionTracker.unmark` (`tracker.py` lines 100-104): erase the
decoration regions and the indicator phantoms, then hide the preview. -/
def unmark (t : RegionTracker) (v : View) : RegionTracker × View :=
  hide_preview t { v with regionsAbbr := [], phantomsAbbr := [] }

/-- Default rendering-target choice of `show_preview` (`tracker.py` lines
113-116): phantom exactly when a truthy config has stylesheet type. -/
def default_as_phantom (t : RegionTracker) : Bool :=
  match t.config with
  | none => false
  | some c => c.ctype = CType.stylesheet

/-- Content computation of `show_preview` (`tracker.py` lines 111-135).
Evaluating the membership test on a `None` abbreviation raises `TypeError`
(line 121 is an `if`, not an `elif`, so the empty case falls through into
it); subscripting a falsy config in the parsed branch also raises. -/
def preview_content (env : Env) (t : RegionTracker) (asPh : Bool) :
    Except PyExc (Option String) :=
  match t.abbreviation with
  | Abbr.pyNone =>
    Except.error (PyExc.typeError "argument of type NoneType is not iterable")
  | Abbr.error _ msg _ pointer =>
    Except.ok (some (error_content pointer (pyHtmlEscape (stripAtSuffix msg))))
  | Abbr.parsed _ simple prev =>
    if t.forced || asPh || !simple then
      match t.config with
      | none => Except.error (PyExc.typeError "NoneType object is not subscriptable")
      | some c =>
        if c.ctype = CType.stylesheet then
          Except.ok (some (format_snippet prev))
        else
          let snippet := if env.isHtml c.syntaxName then env.highlight prev
            else pyHtmlEscape prev
          Except.ok (some ("<div class=\"markup-preview\">" ++ format_snippet snippet ++ "</div>"))
    else Except.ok none

/-- Model of `RegionTracker.show_preview` (`tracker.py` lines 106-155):
early exit when the preview setting is off; otherwise resolve the target,
compute content, tear down on no content, and render the content as a
phantom anchored after the region or as a popup anchored at its begin. -/
def show_preview (env : Env) (v : View) (t : RegionTracker) (as_phantom : Option Bool) :
    Except PyExc (RegionTracker × View) :=
  if env.abbreviationPreview = false then Except.ok (t, v)
  else
    let asPh :=
      match as_phantom with
      | some x => x
      | none => default_as_phantom t
    match preview_content env t asPh with
    | Except.error e => Except.error e
    | Except.ok none => Except.ok (hide_preview t v)
    | Except.ok (some content) =>
      if content = "" then Except.ok (hide_preview t v)
      else if asPh then
        Except.ok ({ t with phantom_preview := true },
          { v with phantomsPreview := [(regionEnd t.region, preview_phantom_html content)] })
      else
        Except.ok ({ t with has_popup_preview := true },
          { v with popup := some (regionBegin t.region, preview_popup_html env.hlStyles content) })

/-- Lookup in the registry dictionary. -/
def cacheGet : List (Nat × RegionTracker) → Nat → Option RegionTracker
  | [], _ => none
  | (k1, t) :: rest, k => if k1 = k then some t else cacheGet rest k

/-- Key removal from the registry dictionary (`del cache[key]`). -/
def cacheDel : List (Nat × RegionTracker) → Nat → List (Nat × RegionTracker)
  | [], _ => []
  | (k1, t) :: rest, k =>
    if k1 = k then cacheDel rest k else (k1, t) :: cacheDel rest k

/-- Key assignment in the registry dictionary: replace in place or append. -/
def cacheSet : List (Nat × RegionTracker) → Nat → RegionTracker → List (Nat × RegionTracker)
  | [], k, t => [(k, t)]
  | (k1, t1) :: rest, k, t =>
    if k1 = k then (k1, t) :: rest else (k1, t1) :: cacheSet rest k t

/-- Model of `get_tracker` (`tracker.py` lines 219-221). -/
def get_tracker (w : World) : Option RegionTracker :=
  cacheGet w.cache w.view.id

/-- Replace the view text by erasing a region (`view.erase(edit, region)`). -/
def eraseViewRegion (v : View) (r : Region) : View :=
  { v with text := pyErase v.text r.a r.b }

/-- Model of `stop_tracking` (`tracker.py` lines 239-247): when a tracker is
registered, unmark it, erase the spanned text only when forced and an edit
context (`edit = true`) is supplied, and drop the registry entry. -/
def stop_tracking (w : World) (edit : Bool) : World :=
  match get_tracker w with
  | none => w
  | some tracker =>
    let uv := unmark tracker w.view
    let v2 := if tracker.forced && edit then eraseViewRegion uv.2 tracker.region else uv.2
    { cache := cacheDel w.cache w.view.id, view := v2 }

/-- Delta application block of `handle_change` (`tracker.py` lines 189-198),
using the caret position from before the edit (`last_pos`). -/
def apply_delta (t : RegionTracker) (last_pos delta : Int) : RegionTracker :=
  if delta < 0 then
    if last_pos = t.region.a then t.shift delta
    else if t.region.a < last_pos ∧ last_pos ≤ t.region.b then t.extend delta
    else t
  else if delta > 0 ∧ t.region.a ≤ last_pos ∧ last_pos ≤ t.region.b then t.extend delta
  else t

/-- Model of `handle_change` (`tracker.py` lines 167-207). Returns the new
world, the tracker surfaced to the caller (if any) and the exception that
escaped (if any).  The cached tracker object is mutated in place in
Python, so the registry is updated at each mutation point. -/
def handle_change (env : Env) (w : World) : World × Option RegionTracker × Option PyExc :=
  match get_tracker w with
  | none => (w, none, none)
  | some tracker =>
    let last_pos := tracker.last_pos
    let region := tracker.region
    if last_pos < region.a ∨ last_pos > region.b then
      (stop_tracking w false, none, none)
    else
      let length : Int := w.view.text.length
      let pos := env.caret
      let delta := length - tracker.last_length
      let tracker1 := apply_delta { tracker with last_length := length, last_pos := pos } last_pos delta
      let w1 := { w with cache := cacheSet w.cache w.view.id tracker1 }
      if is_valid_range tracker1 then
        match update_abbreviation env w1.view tracker1 with
        | (tracker2, some e) =>
          ({ w1 with cache := cacheSet w1.cache w.view.id tracker2 }, none, some e)
        | (tracker2, none) =>
          let mv := mark tracker2 w1.view
          ({ cache := cacheSet w1.cache w.view.id mv.1, view := mv.2 }, some mv.1, none)
      else
        (stop_tracking w1 false, none, none)

theorem cacheGet_del (c : List (Nat × RegionTracker)) (k : Nat) :
    cacheGet (cacheDel c k) k = none := by
  induction c with
  | nil => rfl
  | cons hd tl ih =>
    obtain ⟨k1, t⟩ := hd
    by_cases hk : k1 = k <;> simp [cacheDel, cacheGet, hk, ih]

theorem cacheGet_set (c : List (Nat × RegionTracker)) (k : Nat) (t : RegionTracker) :
    cacheGet (cacheSet c k t) k = some t := by
  induction c with
  | nil => simp [cacheSet, cacheGet]
  | cons hd tl ih =>
    obtain ⟨k1, t1⟩ := hd
    by_cases hk : k1 = k <;> simp [cacheSet, cacheGet, hk, ih]

theorem hide_preview_view_fields (t : RegionTracker) (v : View) :
    (hide_preview t v).2.id = v.id ∧ (hide_preview t v).2.text = v.text := by
  unfold hide_preview
  cases hp : t.has_popup_preview <;> cases hq : t.phantom_preview <;> simp [hp, hq]

theorem unmark_view_fields (t : RegionTracker) (v : View) :
    (unmark t v).2.id = v.id ∧ (unmark t v).2.text = v.text := by
  unfold unmark
  exact hide_preview_view_fields t _

theorem catch_scan_fields (e : PyExc) (abbr : String) (t : RegionTracker) :
    (catch_scan e abbr t).1.region = t.region ∧ (catch_scan e abbr t).1.forced = t.forced := by
  cases e <;> simp [catch_scan]

theorem update_abbreviation_fields (env : Env) (v : View) (t : RegionTracker) :
    (update_abbreviation env v t).1.region = t.region ∧
      (update_abbreviation env v t).1.forced = t.forced := by
  unfold update_abbreviation
  dsimp only []
  split
  · exact ⟨rfl, rfl⟩
  · split
    · split
      · exact ⟨rfl, rfl⟩
      · exact catch_scan_fields _ _ _
    · exact catch_scan_fields _ _ _

theorem mark_fields (t : RegionTracker) (v : View) :
    (mark t v).1.region = t.region ∧ (mark t v).1.forced = t.forced ∧
      (mark t v).2.id = v.id := by
  by_cases h : t.forced <;> simp [mark, h]

theorem is_valid_range_congr (t1 t2 : RegionTracker)
    (hr : t1.region = t2.region) (hf : t1.forced = t2.forced) :
    is_valid_range t1 = is_valid_range t2 := by
  simp [is_valid_range, hr, hf]

theorem stop_tracking_get (w : World) (e : Bool) :
    get_tracker (stop_tracking w e) = none := by
  unfold stop_tracking
  cases hg : get_tracker w with
  | none => exact hg
  | some t =>
    dsimp only []
    unfold get_tracker
    have hid : (if t.forced && e then eraseViewRegion (unmark t w.view).2 t.region
        else (unmark t w.view).2).id = w.view.id := by
      split
      · exact (unmark_view_fields t w.view).1
      · exact (unmark_view_fields t w.view).1
    rw [hid]
    exact cacheGet_del w.cache w.view.id

theorem error_content_ne_empty (s1 s2 : String) : ¬ error_content s1 s2 = "" := by
  intro h
  have hd := congrArg String.data h
  simp [error_content, String.data_append] at hd

/-- C5: for every successfully parsed markup tree, the simple classification
returns true iff the tree has zero top-level children, or it has exactly
one top-level child with no children of its own whose name is either
absent or consists entirely of alphabetic characters; otherwise false. -/
theorem claim_C5_simple_classification (abbr : MarkupAbbreviation) :
    is_simple_markup_abbreviation abbr = true ↔
      (abbr.children = [] ∨
        ∃ c, abbr.children = [c] ∧ c.children = [] ∧
          (c.name = none ∨ (c.name.getD "").toList.all Char.isAlpha = true)) := by
  obtain ⟨cs⟩ := abbr
  match cs with
  | [] => simp [is_simple_markup_abbreviation]
  | [MNode.mk nm ch] =>
    match ch with
    | [] =>
      match nm with
      | none =>
        simp [is_simple_markup_abbreviation, nameFalsy, MNode.children, MNode.name]
      | some s =>
        by_cases hs : s.isEmpty
        · have hs0 : s = "" := (String.isEmpty_iff s).mp hs
          subst hs0
          simp [is_simple_markup_abbreviation, nameFalsy, MNode.children, MNode.name]
          decide
        · simp [is_simple_markup_abbreviation, nameFalsy, pyStrIsAlpha, hs,
            MNode.children, MNode.name]
    | c0 :: crest =>
      simp [is_simple_markup_abbreviation, MNode.children, MNode.name]
  | c1 :: c2 :: rest =>
    simp [is_simple_markup_abbreviation]

/-- C3: with the pre-edit caret inside the closed span, the delta step of
`handle_change` moves both bounds for a deletion at the start edge,
moves only the end for a deletion elsewhere inside the span and for any
insertion, and leaves the span alone when the length is unchanged. -/
theorem claim_C3_delta_application (t : RegionTracker) (lp delta : Int)
    (h1 : t.region.a ≤ lp) (h2 : lp ≤ t.region.b) :
    (delta < 0 → lp = t.region.a →
        (apply_delta t lp delta).region = { a := t.region.a + delta, b := t.region.b + delta })
  ∧ (delta < 0 → t.region.a < lp →
        (apply_delta t lp delta).region = { a := t.region.a, b := t.region.b + delta })
  ∧ (delta > 0 →
        (apply_delta t lp delta).region = { a := t.region.a, b := t.region.b + delta })
  ∧ (delta = 0 → (apply_delta t lp delta).region = t.region) := by
  refine ⟨fun hd he => ?_, fun hd hlt => ?_, fun hd => ?_, fun hd => ?_⟩ <;>
    unfold apply_delta RegionTracker.shift RegionTracker.extend
  · rw [if_pos hd, if_pos he]
  · rw [if_pos hd, if_neg (by omega), if_pos (by omega)]
  · rw [if_neg (by omega), if_pos (by omega)]
  · rw [if_neg (by omega), if_neg (by omega)]

/-- C8: `unmark` is idempotent and leaves no decoration, indicator phantom,
preview phantom or popup behind (the latter two under the tracker's
ownership of its live handles), and it never fails, so it is safe when
nothing is marked. -/
theorem claim_C8_unmark_idempotent (t : RegionTracker) (v : View) :
    unmark (unmark t v).1 (unmark t v).2 = unmark t v
  ∧ (unmark t v).2.regionsAbbr = []
  ∧ (unmark t v).2.phantomsAbbr = []
  ∧ (unmark t v).1.has_popup_preview = false
  ∧ (unmark t v).1.phantom_preview = false
  ∧ (t.has_popup_preview = true ∨ v.popup = none → (unmark t v).2.popup = none)
  ∧ (t.phantom_preview = true ∨ v.phantomsPreview = [] →
      (unmark t v).2.phantomsPreview = []) := by
  cases hp : t.has_popup_preview <;> cases hq : t.phantom_preview <;>
    simp [unmark, hide_preview, hp, hq]

/-- C10: with the global preview setting disabled, `show_preview` is an
identity on the tracker and the view, so previously shown previews are
left up rather than torn down. -/
theorem claim_C10_preview_disabled (env : Env) (v : View) (t : RegionTracker)
    (ap : Option Bool) (h : env.abbreviationPreview = false) :
    show_preview env v t ap = Except.ok (t, v) := by
  simp [show_preview, h]

/-- Baseline oracle environment used by the concrete witnesses. -/
def envBase : Env where
  caret := 0
  getOptions := fun _ => { ctype := CType.markup, syntaxName := "html" }
  stylesheetParse := fun _ _ => Except.ok { ident := 1 }
  markupParse := fun _ _ => Except.ok { children := [] }
  expand := fun _ _ => Except.ok "expanded"
  isHtml := fun _ => false
  highlight := fun s => s
  hlStyles := "HLS"
  abbreviationPreview := true
  markerScope := "region.accent"

/-- Baseline view: the tracked region 6 to 9 spans the word `div`. -/
def viewBase : View where
  id := 7
  text := "hello div world"
  regionsAbbr := []
  phantomsAbbr := []
  phantomsPreview := []
  popup := none

/-- Baseline tracker over the `div` region of `viewBase`. -/
def trackerBase : RegionTracker where
  last_pos := 9
  last_length := 15
  region := { a := 6, b := 9 }
  forced := false
  config := none
  abbreviation := Abbr.pyNone
  offset := 0
  forced_indicator := false
  has_popup_preview := false
  phantom_preview := false

/-- Stylesheet environment: config resolves to stylesheet type, the
stylesheet grammar accepts and the expansion engine produces CSS text. -/
def envCss : Env :=
  { envBase with
    getOptions := fun _ => { ctype := CType.stylesheet, syntaxName := "css" }
    expand := fun _ _ => Except.ok "margin: 10px;" }

/-- View whose whole text is the stylesheet abbreviation `m10`. -/
def viewCss : View := { viewBase with text := "m10" }

/-- Tracker spanning all of `viewCss`. -/
def trackerCss : RegionTracker :=
  { trackerBase with region := { a := 0, b := 3 }, last_pos := 3, last_length := 3 }

/-- C1 counterexample: a stylesheet abbreviation whose parse succeeds is
stored with `simple = true`, not `false`: `tracker.py` line 65 sets
`simple = True` in the stylesheet branch. -/
theorem claim_C1_counterexample :
    (resolve_config envCss trackerCss).ctype = CType.stylesheet
  ∧ (update_abbreviation envCss viewCss trackerCss).1.abbreviation =
      Abbr.parsed "m10" true "margin: 10px;" := by
  exact ⟨rfl, rfl⟩

/-- C1 amended: for every stylesheet abbreviation whose parse succeeds,
`update_abbreviation` classifies the parsed tree as simple (`is_simple`
is true in the resulting Parsed state). -/
theorem claim_C1_amended_stylesheet_simple (env : Env) (v : View) (t : RegionTracker)
    (a p : String) (s : Bool)
    (hst : (resolve_config env t).ctype = CType.stylesheet)
    (hp : (update_abbreviation env v t).1.abbreviation = Abbr.parsed a s p) :
    s = true := by
  unfold update_abbreviation at hp
  by_cases he : ((substrView v t.region).drop t.offset).isEmpty
  · simp [he] at hp
  · simp only [he, Bool.false_eq_true, if_false, ite_false] at hp
    unfold parsed_result at hp
    rw [if_pos hst] at hp
    cases hcss : env.stylesheetParse ((substrView v t.region).drop t.offset)
        (resolve_config env t) with
    | ok tr =>
      rw [hcss] at hp
      cases hex : env.expand (ParsedTree.css tr)
          { ctype := (resolve_config env t).ctype
            syntaxName := (resolve_config env t).syntaxName
            preview := true } with
      | ok prev =>
        simp [hex, Abbr.parsed.injEq] at hp
        exact hp.2.1
      | error e =>
        cases e <;> simp [hex, catch_scan] at hp
    | error e =>
      rw [hcss] at hp
      cases e <;> simp [catch_scan] at hp

/-- C1 amended witness at the concrete stylesheet fixture. -/
theorem claim_C1_amended_witness :
    (resolve_config envCss trackerCss).ctype = CType.stylesheet ∧ (true : Bool) = true :=
  ⟨rfl, claim_C1_amended_stylesheet_simple envCss viewCss trackerCss
    "m10" "margin: 10px;" true rfl rfl⟩

/-- Tracker with an empty forced span, the state that produces
`parse_state = Empty` (abbreviation `None`). -/
def trackerEmpty : RegionTracker :=
  { trackerBase with region := { a := 6, b := 6 }, forced := true, last_pos := 6 }

/-- C2: with previews enabled and an Empty parse state, `show_preview`
raises `TypeError` instead of rendering nothing: line 121 of `tracker.py`
is an `if` rather than an `elif`, so the `None` abbreviation of the empty
region falls into the membership test `error in None`. -/
theorem claim_C2_empty_preview_raises :
    (update_abbreviation envBase viewBase trackerEmpty).1.abbreviation = Abbr.pyNone
  ∧ show_preview envBase viewBase (update_abbreviation envBase viewBase trackerEmpty).1 none
      = Except.error (PyExc.typeError "argument of type NoneType is not iterable") := by
  exact ⟨rfl, rfl⟩

/-- C6: `update_abbreviation` captures scanner and token-scanner failures of
the grammar parser into the error dict, message, offset and pointer
included, raising nothing; any other exception of the parser or of the
expansion engine escapes, leaving the abbreviation reset to `None`. -/
theorem claim_C6_scan_errors_captured (env : Env) (v : View) (t : RegionTracker)
    (habbr : ((substrView v t.region).drop t.offset).isEmpty = false) :
    (∀ msg p,
        (parsed_result env (resolve_config env t) ((substrView v t.region).drop t.offset)
            = Except.error (PyExc.scanner msg p)
          ∨ parsed_result env (resolve_config env t) ((substrView v t.region).drop t.offset)
            = Except.error (PyExc.tokenScanner msg p)) →
        update_abbreviation env v t =
          ({ t with
              config := some (resolve_config env t)
              abbreviation := Abbr.error ((substrView v t.region).drop t.offset)
                msg p (errPointer p) }, none))
  ∧ (∀ e, is_scan_error e = false →
        parsed_result env (resolve_config env t) ((substrView v t.region).drop t.offset)
          = Except.error e →
        update_abbreviation env v t =
          ({ t with
              config := some (resolve_config env t)
              abbreviation := Abbr.pyNone }, some e))
  ∧ (∀ tree simple e, is_scan_error e = false →
        parsed_result env (resolve_config env t) ((substrView v t.region).drop t.offset)
          = Except.ok (tree, simple) →
        env.expand tree { resolve_config env t with preview := true } = Except.error e →
        update_abbreviation env v t =
          ({ t with
              config := some (resolve_config env t)
              abbreviation := Abbr.pyNone }, some e)) := by
  refine ⟨?_, ?_, ?_⟩
  · intro msg p hpr
    unfold update_abbreviation
    simp only [habbr, Bool.false_eq_true, if_false, ite_false]
    rcases hpr with hpr | hpr <;> rw [hpr] <;> rfl
  · intro e he hpr
    unfold update_abbreviation
    simp only [habbr, Bool.false_eq_true, if_false, ite_false]
    rw [hpr]
    cases e <;> simp [is_scan_error] at he ⊢ <;> rfl
  · intro tree simple e he hpr hex
    unfold update_abbreviation
    simp only [habbr, Bool.false_eq_true, if_false, ite_false]
    rw [hpr]
    have hex2 : env.expand tree
        { ctype := (resolve_config env t).ctype
          syntaxName := (resolve_config env t).syntaxName
          preview := true } = Except.error e := hex
    dsimp only
    rw [hex2]
    cases e <;> simp [is_scan_error] at he ⊢ <;> rfl

/-- Environment whose markup grammar rejects every input with a scanner
failure carrying an offset. -/
def envScanErr : Env :=
  { envBase with
    markupParse := fun _ _ => Except.error (PyExc.scanner "invalid abbreviation at 2" (some 2)) }

/-- C6 witness at a concrete scanner failure. -/
theorem claim_C6_witness :
    ((substrView viewBase trackerBase.region).drop trackerBase.offset).isEmpty = false
  ∧ update_abbreviation envScanErr viewBase trackerBase =
      ({ trackerBase with
          config := some { ctype := CType.markup, syntaxName := "html" }
          abbreviation := Abbr.error "div" "invalid abbreviation at 2" (some 2) "--^" },
        none) := by
  refine ⟨rfl, ?_⟩
  exact (claim_C6_scan_errors_captured envScanErr viewBase trackerBase rfl).1
    "invalid abbreviation at 2" (some 2) (Or.inl rfl)

/-- C7: with previews enabled, an Error parse state always renders the error
fragment, whatever the forced flag, the stored simple classification or
the requested target; the pointer line is the stored offset of dashes
followed by a caret and the message slot holds the error message with the
trailing `at` offset suffix stripped (HTML-encoded for display). -/
theorem claim_C7_error_always_rendered (env : Env) (v : View) (t : RegionTracker)
    (ap : Option Bool) (ab msg : String) (p : Nat)
    (hprev : env.abbreviationPreview = true)
    (herr : t.abbreviation = Abbr.error ab msg (some p) (errPointer (some p))) :
    errPointer (some p) = String.mk (List.replicate p '-') ++ "^"
  ∧ show_preview env v t ap =
      (if (match ap with | some x => x | none => default_as_phantom t) then
        Except.ok ({ t with phantom_preview := true },
          { v with phantomsPreview := [(regionEnd t.region,
              preview_phantom_html (error_content (errPointer (some p))
                (pyHtmlEscape (stripAtSuffix msg))))] })
      else
        Except.ok ({ t with has_popup_preview := true },
          { v with popup := some (regionBegin t.region,
              preview_popup_html env.hlStyles (error_content (errPointer (some p))
                (pyHtmlEscape (stripAtSuffix msg)))) })) := by
  refine ⟨rfl, ?_⟩
  have hne : ¬ error_content (errPointer (some p)) (pyHtmlEscape (stripAtSuffix msg)) = "" :=
    error_content_ne_empty _ _
  cases ap with
  | none =>
    cases hdef : default_as_phantom t <;>
      simp [show_preview, hprev, preview_content, herr, hne, hdef]
  | some b =>
    cases b <;> simp [show_preview, hprev, preview_content, herr, hne]

/-- Tracker in the Error parse state over the baseline view. -/
def trackerErr : RegionTracker :=
  { trackerBase with
    config := some { ctype := CType.markup, syntaxName := "html" }
    abbreviation := Abbr.error "d" "bad input at 2" (some 2) (errPointer (some 2)) }

/-- C7 witness: the concrete error tracker renders the popup error fragment
with pointer `--^` and message stripped of ` at 2`. -/
theorem claim_C7_witness :
    show_preview envBase viewBase trackerErr none =
      Except.ok ({ trackerErr with has_popup_preview := true },
        { viewBase with popup := some (6,
            preview_popup_html "HLS" (error_content "--^" "bad input")) }) := by
  have h := (claim_C7_error_always_rendered envBase viewBase trackerErr none
    "d" "bad input at 2" 2 rfl rfl).2
  exact h

/-- C9: when a tracker is registered, `stop_tracking` removes it from the
registry, applies `unmark`, and erases the spanned text exactly when the
tracker is forced and an edit context is supplied; otherwise the document
text is untouched. -/
theorem claim_C9_stop_tracking_effects (w : World) (t : RegionTracker) (edit : Bool)
    (h : get_tracker w = some t) :
    get_tracker (stop_tracking w edit) = none
  ∧ (stop_tracking w edit).view =
      (if t.forced && edit then eraseViewRegion (unmark t w.view).2 t.region
       else (unmark t w.view).2)
  ∧ ((t.forced && edit) = true →
      (stop_tracking w edit).view.text = pyErase w.view.text t.region.a t.region.b)
  ∧ ((t.forced && edit) = false → (stop_tracking w edit).view.text = w.view.text) := by
  have hview : (stop_tracking w edit).view =
      (if t.forced && edit then eraseViewRegion (unmark t w.view).2 t.region
       else (unmark t w.view).2) := by
    unfold stop_tracking
    rw [h]
  refine ⟨stop_tracking_get w edit, hview, ?_, ?_⟩
  · intro hc
    rw [hview, if_pos hc]
    unfold eraseViewRegion
    dsimp only
    rw [(unmark_view_fields t w.view).2]
  · intro hc
    rw [hview, if_neg (by simp [hc])]
    exact (unmark_view_fields t w.view).2

/-- Forced tracker registered for the baseline view. -/
def trackerForcedB : RegionTracker := { trackerBase with forced := true }

/-- World holding the forced tracker for the baseline view. -/
def worldC9 : World := { cache := [(7, trackerForcedB)], view := viewBase }

/-- C9 witness: stopping a forced tracker with an edit context deletes the
spanned text and empties the registry. -/
theorem claim_C9_witness :
    get_tracker worldC9 = some trackerForcedB
  ∧ get_tracker (stop_tracking worldC9 true) = none
  ∧ (stop_tracking worldC9 true).view.text = "hello  world" := by
  refine ⟨rfl, (claim_C9_stop_tracking_effects worldC9 trackerForcedB true rfl).1, ?_⟩
  have h := (claim_C9_stop_tracking_effects worldC9 trackerForcedB true rfl).2.2.1 rfl
  rw [h]
  rfl

/-- Environment with the preview setting switched off. -/
def envOff : Env := { envBase with abbreviationPreview := false }

/-- View showing a previously rendered popup. -/
def viewPopup : View := { viewBase with popup := some (6, "earlier preview") }

/-- Tracker that owns the live popup handle. -/
def trackerPopup : RegionTracker :=
  { trackerBase with
    has_popup_preview := true
    abbreviation := Abbr.parsed "div" true "expanded"
    config := some { ctype := CType.markup, syntaxName := "html" } }

/-- C10 witness: with previews disabled, the earlier popup survives
untouched. -/
theorem claim_C10_witness :
    envOff.abbreviationPreview = false
  ∧ show_preview envOff viewPopup trackerPopup none = Except.ok (trackerPopup, viewPopup) :=
  ⟨rfl, claim_C10_preview_disabled envOff viewPopup trackerPopup none rfl⟩

/-- Tracker of testable-properties Scenario B: span 5 to 9 with the caret at
the end and a pending shrink by two. -/
def trackerScB : RegionTracker :=
  { trackerBase with region := { a := 5, b := 9 }, last_pos := 9, last_length := 20 }

/-- C3 witness: Scenario B, a deletion of two characters at the end of the
span extends the end by the delta, giving span 5 to 7. -/
theorem claim_C3_witness :
    trackerScB.region.a ≤ 9 ∧ (9 : Int) ≤ trackerScB.region.b
  ∧ (apply_delta trackerScB 9 (-2)).region = { a := 5, b := 7 } := by
  refine ⟨by decide, by decide, ?_⟩
  have h := (claim_C3_delta_application trackerScB 9 (-2) (by decide) (by decide)).2.1
    (by decide) (by decide)
  rw [h]
  decide

theorem handle_change_no_tracker (env : Env) (w : World)
    (hg : get_tracker w = none) : handle_change env w = (w, none, none) := by
  unfold handle_change
  rw [hg]

theorem handle_change_outside (env : Env) (w : World) (tr : RegionTracker)
    (hg : get_tracker w = some tr)
    (hout : tr.last_pos < tr.region.a ∨ tr.last_pos > tr.region.b) :
    handle_change env w = (stop_tracking w false, none, none) := by
  unfold handle_change
  rw [hg]
  dsimp only
  rw [if_pos hout]

theorem handle_change_invalid (env : Env) (w : World) (tr : RegionTracker)
    (hg : get_tracker w = some tr)
    (hin : ¬ (tr.last_pos < tr.region.a ∨ tr.last_pos > tr.region.b))
    (hval : is_valid_range (apply_delta
        { tr with last_length := (w.view.text.length : Int), last_pos := env.caret }
        tr.last_pos ((w.view.text.length : Int) - tr.last_length)) = false) :
    handle_change env w =
      (stop_tracking
        { w with cache := cacheSet w.cache w.view.id (apply_delta
            { tr with last_length := (w.view.text.length : Int), last_pos := env.caret }
            tr.last_pos ((w.view.text.length : Int) - tr.last_length)) } false,
        none, none) := by
  unfold handle_change
  rw [hg]
  dsimp only
  rw [if_neg hin, if_neg (by simp [hval])]

theorem handle_change_valid (env : Env) (w : World) (tr : RegionTracker)
    (hg : get_tracker w = some tr)
    (hin : ¬ (tr.last_pos < tr.region.a ∨ tr.last_pos > tr.region.b))
    (hval : is_valid_range (apply_delta
        { tr with last_length := (w.view.text.length : Int), last_pos := env.caret }
        tr.last_pos ((w.view.text.length : Int) - tr.last_length)) = true) :
    ∃ tf, get_tracker (handle_change env w).1 = some tf
      ∧ tf.region = (apply_delta
          { tr with last_length := (w.view.text.length : Int), last_pos := env.caret }
          tr.last_pos ((w.view.text.length : Int) - tr.last_length)).region
      ∧ tf.forced = (apply_delta
          { tr with last_length := (w.view.text.length : Int), last_pos := env.caret }
          tr.last_pos ((w.view.text.length : Int) - tr.last_length)).forced := by
  unfold handle_change
  rw [hg]
  dsimp only
  rw [if_neg hin, if_pos hval]
  rcases htu : update_abbreviation env w.view (apply_delta
      { tr with last_length := (w.view.text.length : Int), last_pos := env.caret }
      tr.last_pos ((w.view.text.length : Int) - tr.last_length)) with ⟨tracker2, oexc⟩
  have hfields := update_abbreviation_fields env w.view (apply_delta
      { tr with last_length := (w.view.text.length : Int), last_pos := env.caret }
      tr.last_pos ((w.view.text.length : Int) - tr.last_length))
  rw [htu] at hfields
  cases oexc with
  | some e =>
    dsimp only
    refine ⟨tracker2, ?_, hfields.1, hfields.2⟩
    simp only [get_tracker]
    exact cacheGet_set _ _ _
  | none =>
    dsimp only
    refine ⟨(mark tracker2 w.view).1, ?_, ?_, ?_⟩
    · simp only [get_tracker]
      rw [(mark_fields tracker2 w.view).2.2]
      exact cacheGet_set _ _ _
    · rw [(mark_fields tracker2 w.view).1]
      exact hfields.1
    · rw [(mark_fields tracker2 w.view).2.1]
      exact hfields.2

/-- C4: after any `handle_change` call the document either has no tracker or
a tracker whose span is valid; a caret outside the closed span destroys
the tracker immediately with no delta applied, and a delta that produces
an invalid span destroys it after application. -/
theorem claim_C4_tracker_validity (env : Env) (w : World) :
    (∀ t2, get_tracker (handle_change env w).1 = some t2 → is_valid_range t2 = true)
  ∧ (∀ t, get_tracker w = some t →
      (t.last_pos < t.region.a ∨ t.last_pos > t.region.b) →
      (handle_change env w).1 = stop_tracking w false ∧
        get_tracker (handle_change env w).1 = none)
  ∧ (∀ t, get_tracker w = some t →
      t.region.a ≤ t.last_pos → t.last_pos ≤ t.region.b →
      is_valid_range (apply_delta
        { t with last_length := (w.view.text.length : Int), last_pos := env.caret }
        t.last_pos ((w.view.text.length : Int) - t.last_length)) = false →
      get_tracker (handle_change env w).1 = none) := by
  refine ⟨?_, ?_, ?_⟩
  · intro t2 ht2
    cases hg : get_tracker w with
    | none =>
      rw [handle_change_no_tracker env w hg] at ht2
      dsimp only at ht2
      rw [hg] at ht2
      cases ht2
    | some tr =>
      by_cases hout : tr.last_pos < tr.region.a ∨ tr.last_pos > tr.region.b
      · rw [handle_change_outside env w tr hg hout] at ht2
        dsimp only at ht2
        rw [stop_tracking_get] at ht2
        cases ht2
      · by_cases hval : is_valid_range (apply_delta
            { tr with last_length := (w.view.text.length : Int), last_pos := env.caret }
            tr.last_pos ((w.view.text.length : Int) - tr.last_length)) = true
        · obtain ⟨tf, htf, hreg, hforced⟩ := handle_change_valid env w tr hg hout hval
          rw [htf] at ht2
          injection ht2 with ht2
          rw [← ht2]
          rw [is_valid_range_congr tf _ hreg hforced]
          exact hval
        · rw [handle_change_invalid env w tr hg hout
            (Bool.not_eq_true _ ▸ hval)] at ht2
          dsimp only at ht2
          rw [stop_tracking_get] at ht2
          cases ht2
  · intro t ht hout
    have hw := handle_change_outside env w t ht hout
    constructor
    · rw [hw]
    · rw [hw]
      dsimp only
      exact stop_tracking_get w false
  · intro t ht h1 h2 hval
    by_cases hout : t.last_pos < t.region.a ∨ t.last_pos > t.region.b
    · rcases hout with h | h <;> omega
    · rw [handle_change_invalid env w t ht hout hval]
      dsimp only
      exact stop_tracking_get _ false

/-- Tracker whose caret moved away from the spanned region before the edit. -/
def trackerOut : RegionTracker := { trackerBase with last_pos := 0 }

/-- World holding the strayed tracker. -/
def worldC4 : World := { cache := [(7, trackerOut)], view := viewBase }

/-- C4 witness: an edit with the caret outside the span destroys the tracker
and a later lookup finds none. -/
theorem claim_C4_witness :
    get_tracker worldC4 = some trackerOut
  ∧ (trackerOut.last_pos < trackerOut.region.a ∨ trackerOut.last_pos > trackerOut.region.b)
  ∧ get_tracker (handle_change envBase worldC4).1 = none := by
  refine ⟨rfl, by decide, ?_⟩
  exact ((claim_C4_tracker_validity envBase worldC4).2.1 trackerOut rfl (by decide)).2

/-- C8 witness: unmarking the popup-owning tracker clears the popup, and a
second `unmark` changes nothing further. -/
theorem claim_C8_witness :
    unmark (unmark trackerPopup viewPopup).1 (unmark trackerPopup viewPopup).2
      = unmark trackerPopup viewPopup
  ∧ (unmark trackerPopup viewPopup).2.popup = none := by
  refine ⟨(claim_C8_unmark_idempotent trackerPopup viewPopup).1, ?_⟩
  exact (claim_C8_unmark_idempotent trackerPopup viewPopup).2.2.2.2.2.1 (Or.inl rfl)
